import Mathlib

/-!
Verification of the ktel Kafka consumer library core: a shallow embedding of
the health checker (package health), the rebalance callbacks and client-option
construction (package kgo), the poll/dispatch loop (package consumer), the
instrumenting processor decorator (packages processor and telemetry), and the
shutdown sequence of app.Start (package ktel), with theorems checking the
specification's claims against the embedded code.
-/

namespace Ktel

/-! ## Health checker (package health)

`type Check func() error`: a check returns an error message or nil.  The Go
map of named checks is modelled as an association list; AddReadinessCheck is
last-write-wins, matching map assignment. -/

/-- A readiness check function: some error message, or none for success. -/
abbrev Check := Unit → Option String

/-- health.Checker: the readiness flag plus the named readiness checks.
The reader/writer lock serialises access; the sequential model needs no lock. -/
structure Checker where
  ready : Bool
  readinessChecks : List (String × Check)

/-- health.NewChecker: a fresh checker with an empty check map; the `ready`
field takes the Go zero value false. -/
def NewChecker : Checker :=
  { ready := false, readinessChecks := [] }

/-- Map assignment on the association list: replace the entry with this name,
or append a new one. -/
def insertCheck : List (String × Check) → String → Check → List (String × Check)
  | [], name, check => [(name, check)]
  | (n, c) :: rest, name, check =>
    if n = name then (name, check) :: rest
    else (n, c) :: insertCheck rest name check

/-- health.Checker.AddReadinessCheck: registers a check; last write for a
given name wins. -/
def AddReadinessCheck (c : Checker) (name : String) (check : Check) : Checker :=
  { c with readinessChecks := insertCheck c.readinessChecks name check }

/-- health.Checker.SetReady: unconditional overwrite of the readiness flag. -/
def SetReady (c : Checker) (ready : Bool) : Checker :=
  { c with ready := ready }

/-- health.Checker.IsReady: snapshot read of the readiness flag. -/
def IsReady (c : Checker) : Bool :=
  c.ready

/-- An HTTP response as a probe handler produces it: status code and body. -/
structure HTTPResponse where
  status : Nat
  body : String
deriving DecidableEq

/-- Go net/http's http.Error: writes the message plus a newline with the
given status code. -/
def httpError (msg : String) (code : Nat) : HTTPResponse :=
  { status := code, body := msg ++ "\n" }

/-- health.Checker.LivenessProbe: always 200 with body "ok". -/
def LivenessProbe (_ : Checker) : HTTPResponse :=
  { status := 200, body := "ok" }

/-- The first registered check that currently fails, with its error, in
iteration order of the model's association list (the Go map's iteration order
is unspecified; the handler returns on whichever failing check it meets
first). -/
def firstFailingCheck : List (String × Check) → Option (String × String)
  | [] => none
  | (name, check) :: rest =>
    match check () with
    | some err => some (name, err)
    | none => firstFailingCheck rest

/-- health.Checker.ReadinessProbe: 503 with an explanatory body when the flag
is false or some registered check fails; otherwise 200 with body "ok". -/
def ReadinessProbe (c : Checker) : HTTPResponse :=
  if !c.ready then
    httpError "consumer not ready (no partitions assigned)" 503
  else
    match firstFailingCheck c.readinessChecks with
    | some (name, err) => httpError (name ++ " is not ready: " ++ err) 503
    | none => { status := 200, body := "ok" }

/-! ## Rebalance callbacks (kgo/options.go)

The three callbacks installed by BuildKgoOptions, as they act on the health
checker.  Each receives the partition map of the event (topic to partition
list) and sets the readiness flag unconditionally. -/

/-- The map argument a rebalance callback receives: topic to partitions. -/
abbrev PartitionMap := List (String × List Int)

/-- The kgo.OnPartitionsAssigned callback: logs and calls SetReady(true),
with no test on the assigned map. -/
def onPartitionsAssigned (c : Checker) (_assigned : PartitionMap) : Checker :=
  SetReady c true

/-- The kgo.OnPartitionsRevoked callback: logs and calls SetReady(false). -/
def onPartitionsRevoked (c : Checker) (_revoked : PartitionMap) : Checker :=
  SetReady c false

/-- The kgo.OnPartitionsLost callback: warns and calls SetReady(false). -/
def onPartitionsLost (c : Checker) (_lost : PartitionMap) : Checker :=
  SetReady c false

/-- A rebalance event delivered to the readiness tracker. -/
inductive RebalanceEvent
  | assigned (m : PartitionMap)
  | revoked (m : PartitionMap)
  | lost (m : PartitionMap)

/-- Dispatch of one rebalance event to the matching callback. -/
def applyRebalanceEvent (c : Checker) : RebalanceEvent → Checker
  | RebalanceEvent.assigned m => onPartitionsAssigned c m
  | RebalanceEvent.revoked m => onPartitionsRevoked c m
  | RebalanceEvent.lost m => onPartitionsLost c m

/-- A whole sequence of rebalance events, applied in order. -/
def applyRebalanceEvents (c : Checker) (evs : List RebalanceEvent) : Checker :=
  evs.foldl applyRebalanceEvent c

/-! ## Records, fetches and the consumer loop (package consumer)

kgo.Record and kgo.FetchError are external library types; only the fields the
core reads are modelled.  A record carries an attached context
(kgo.Record.Context) that the dispatcher passes to the processor. -/

/-- A trace/cancellation context.  Opaque to the core except that the
instrumenting processor derives a child context when it starts a span. -/
inductive Ctx
  | root
  | child (parent : Ctx)
deriving DecidableEq

/-- The fields of kgo.Record the core reads: topic, partition, offset and the
attached context. -/
structure Record where
  topic : String
  partition : Int
  offset : Int
  ctx : Ctx
deriving DecidableEq

/-- kgo.FetchError: a per-(topic, partition) fetch-level error. -/
structure FetchError where
  topic : String
  partition : Int
  err : String
deriving DecidableEq

/-- One poll result through the Fetches interface: the list Errors() returns
and the records EachRecord visits, in delivery order. -/
structure Fetch where
  errors : List FetchError
  records : List Record

/-- processor.Processor: ProcessRecord(ctx, record) returns an error or nil. -/
abbrev Processor := Ctx → Record → Option String

/-- What one run of the consumer loop observably does, in order: polls, logged
fetch errors, completed record dispatches, and the final return. -/
inductive LoopEvent
  | polled (iteration : Nat)
  | fetchErrorLogged (e : FetchError)
  | processed (r : Record) (result : Option String)
  | stopped
deriving DecidableEq

/-- The body of one Consumer.Run iteration after PollFetches returns: if the
batch carries fetch errors (len(errs) > 0), each is logged and no record is
dispatched; otherwise every record is dispatched to the processor with its
attached context, and the wait-group join completes them all before the
iteration ends. -/
def iterationEvents (proc : Processor) (f : Fetch) : List LoopEvent :=
  if f.errors.length > 0 then
    f.errors.map LoopEvent.fetchErrorLogged
  else
    f.records.map (fun r => LoopEvent.processed r (proc r.ctx r))

/-- Consumer.Run from iteration i: the cancellation check `ctx.Err() != nil`
sits at the top of the loop and fires from iteration `cancelAt` on; before
that, each iteration polls the client and runs `iterationEvents`.  The client
is a deterministic script giving the fetch each poll returns. -/
def runFrom (proc : Processor) (client : Nat → Fetch) (cancelAt : Nat) (i : Nat) :
    List LoopEvent :=
  if h : cancelAt ≤ i then
    [LoopEvent.stopped]
  else
    (LoopEvent.polled i :: iterationEvents proc (client i)) ++
      runFrom proc client cancelAt (i + 1)
termination_by cancelAt - i
decreasing_by omega

/-- Consumer.Run: the poll loop from its first iteration. -/
def Run (proc : Processor) (client : Nat → Fetch) (cancelAt : Nat) : List LoopEvent :=
  runFrom proc client cancelAt 0

/-- Is this event a completed processor dispatch? -/
def isProcessedEvent : LoopEvent → Bool
  | LoopEvent.processed _ _ => true
  | _ => false

/-- Is this event a poll? -/
def isPolledEvent : LoopEvent → Bool
  | LoopEvent.polled _ => true
  | _ => false

/-- Number of completed processor dispatches in a trace. -/
def countProcessed (tr : List LoopEvent) : Nat :=
  tr.countP isProcessedEvent

/-- Number of polls in a trace. -/
def countPolled (tr : List LoopEvent) : Nat :=
  tr.countP isPolledEvent

/-! ## Instrumenting processor (packages processor and telemetry)

The decorator's observable telemetry side effects are traced as a list of
effects; the wrapped processor stays a pure function. -/

/-- A telemetry side effect the instrumenting processor emits. -/
inductive TelemetryEffect
  | spanStart (name : String)
  | innerCall
  | counterAdd (topic : String) (success : Bool)
  | histogramRecord (topic : String) (success : Bool)
  | spanSetAttributes (topic : String) (partition : Int)
  | spanEnd
deriving DecidableEq

/-- telemetry.Instrumentor.InstrumentMessage: one counter increment and one
duration observation, both tagged with the topic and the success flag, then
the span attributes (topic and partition). -/
def InstrumentMessage (record : Record) (success : Bool) : List TelemetryEffect :=
  [TelemetryEffect.counterAdd record.topic success,
   TelemetryEffect.histogramRecord record.topic success,
   TelemetryEffect.spanSetAttributes record.topic record.partition]

/-- processor.InstrumentingProcessor.ProcessRecord: starts a span named
"<topic> process" (deriving the span context), invokes the inner processor
once with that context, and on every exit path runs the deferred
InstrumentMessage with success = (err == nil) and then the deferred span.End,
returning the inner result unchanged.  Go defers run last-in first-out, so
InstrumentMessage precedes span.End in the effect trace. -/
def instrumentedProcessRecord (inner : Processor) (ctx : Ctx) (record : Record) :
    Option String × List TelemetryEffect :=
  let spanName := record.topic ++ " process"
  let spanCtx := Ctx.child ctx
  let err := inner spanCtx record
  (err,
    TelemetryEffect.spanStart spanName :: TelemetryEffect.innerCall ::
      (InstrumentMessage record (err == none) ++ [TelemetryEffect.spanEnd]))

/-! ## Client option construction (kgo/options.go)

zap.S().Fatalf aborts the process, before the consumer loop or the probe
server ever starts; it is modelled as Except.error carrying the fatal
message.  zap.S().Warnf messages are collected as warnings.  The filesystem
and crypto outcomes createTLSConfig depends on are oracles in TLSEnv. -/

/-- ASCII upper-casing of one character (Go strings.ToUpper restricted to the
ASCII range the configuration enums use). -/
def charUpper (c : Char) : Char :=
  if 97 ≤ c.toNat ∧ c.toNat ≤ 122 then Char.ofNat (c.toNat - 32) else c

/-- ASCII lower-casing of one character (Go strings.ToLower restricted to the
ASCII range the configuration enums use). -/
def charLower (c : Char) : Char :=
  if 65 ≤ c.toNat ∧ c.toNat ≤ 90 then Char.ofNat (c.toNat + 32) else c

/-- Go strings.ToUpper, modelled on ASCII. -/
def goToUpper (s : String) : String :=
  String.mk (s.data.map charUpper)

/-- Go strings.ToLower, modelled on ASCII. -/
def goToLower (s : String) : String :=
  String.mk (s.data.map charLower)

/-- The rebalance strategies BuildKgoOptions knows. -/
inductive Balancer
  | roundRobin
  | range
  | sticky
deriving DecidableEq

/-- The SASL mechanisms BuildKgoOptions supports. -/
inductive SaslMechanism
  | plain
  | scramSha256
  | scramSha512
deriving DecidableEq

/-- One kgo client option, as BuildKgoOptions appends them. -/
inductive KgoOpt
  | requiredAcks
  | seedBrokers (brokers : List String)
  | consumerGroup (groupID : String)
  | consumeTopics (topic : String)
  | onPartitionsAssignedOpt
  | onPartitionsRevokedOpt
  | onPartitionsLostOpt
  | fetchMaxBytes (n : Nat)
  | withHooks
  | balancers (b : Balancer)
  | dialTLSConfig
  | sasl (m : SaslMechanism) (username password : String)
deriving DecidableEq

/-- Outcomes of the external calls createTLSConfig makes:
tls.LoadX509KeyPair(certFile, keyFile) and os.ReadFile(caFile); an error
value is the message the call returns. -/
structure TLSEnv where
  loadX509KeyPair : String → String → Except String Unit
  readFile : String → Except String Unit

/-- The TLS section of the configuration. -/
structure TLSSettings where
  enabled : Bool
  caFile : String
  certFile : String
  keyFile : String

/-- The SASL section of the configuration. -/
structure SASLSettings where
  enabled : Bool
  mechanism : String
  username : String
  password : String

/-- The kafka section of the configuration. -/
structure KafkaSettings where
  brokers : String
  topic : String
  groupID : String
  rebalanceStrategy : String
  tls : TLSSettings
  sasl : SASLSettings

/-- The otel section of the configuration (only the enable flag matters to
option construction). -/
structure OtelSettings where
  enabled : Bool

/-- The configuration BuildKgoOptions consumes. -/
structure Config where
  appName : String
  kafka : KafkaSettings
  otel : OtelSettings

/-- kgo.createTLSConfig: load the client key pair when both cert and key
paths are set (an error wraps "could not load client key pair"), then read
the CA file when its path is set (an error wraps "could not read CA
certificate").  AppendCertsFromPEM's boolean result is ignored by the Go
code. -/
def createTLSConfig (env : TLSEnv) (certFile keyFile caFile : String) :
    Except String Unit :=
  match (if certFile ≠ "" ∧ keyFile ≠ "" then env.loadX509KeyPair certFile keyFile
         else Except.ok ()) with
  | Except.error e => Except.error ("could not load client key pair: " ++ e)
  | Except.ok _ =>
    match (if caFile ≠ "" then env.readFile caFile else Except.ok ()) with
    | Except.error e => Except.error ("could not read CA certificate: " ++ e)
    | Except.ok _ => Except.ok ()

/-- The warning Warnf logs for an unknown or empty rebalance strategy. -/
def unknownStrategyWarning (strategy : String) : String :=
  "Unknown or empty rebalance strategy " ++ strategy ++ ", using default."

/-- The options the switch on strings.ToLower(rebalanceStrategy) appends,
with the warning the default branch logs: an unknown value appends no
balancer option, leaving the library default. -/
def balancerOpts (strategy : String) : List KgoOpt × List String :=
  match goToLower strategy with
  | "roundrobin" => ([KgoOpt.balancers Balancer.roundRobin], [])
  | "range" => ([KgoOpt.balancers Balancer.range], [])
  | "sticky" => ([KgoOpt.balancers Balancer.sticky], [])
  | _ => ([], [unknownStrategyWarning strategy])

/-- The TLS block of BuildKgoOptions: when TLS is enabled, a createTLSConfig
error is fatal ("Failed to create TLS config"); success appends the dial TLS
option. -/
def tlsOpts (env : TLSEnv) (t : TLSSettings) : Except String (List KgoOpt) :=
  if t.enabled then
    match createTLSConfig env t.certFile t.keyFile t.caFile with
    | Except.error e => Except.error ("Failed to create TLS config: " ++ e)
    | Except.ok _ => Except.ok [KgoOpt.dialTLSConfig]
  else Except.ok []

/-- The SASL block of BuildKgoOptions: when SASL is enabled, the switch on
strings.ToUpper(mechanism) appends the matching mechanism option, and any
other value is fatal ("Unsupported SASL mechanism"). -/
def saslOpts (s : SASLSettings) : Except String (List KgoOpt) :=
  if s.enabled then
    match goToUpper s.mechanism with
    | "PLAIN" => Except.ok [KgoOpt.sasl SaslMechanism.plain s.username s.password]
    | "SCRAM-SHA-256" =>
      Except.ok [KgoOpt.sasl SaslMechanism.scramSha256 s.username s.password]
    | "SCRAM-SHA-512" =>
      Except.ok [KgoOpt.sasl SaslMechanism.scramSha512 s.username s.password]
    | _ => Except.error ("Unsupported SASL mechanism: " ++ s.mechanism)
  else Except.ok []

/-- The base option list BuildKgoOptions starts from. -/
def baseOpts (cfg : Config) : List KgoOpt :=
  [KgoOpt.requiredAcks,
   KgoOpt.seedBrokers (cfg.kafka.brokers.splitOn ","),
   KgoOpt.consumerGroup cfg.kafka.groupID,
   KgoOpt.consumeTopics cfg.kafka.topic,
   KgoOpt.onPartitionsAssignedOpt,
   KgoOpt.onPartitionsRevokedOpt,
   KgoOpt.onPartitionsLostOpt,
   KgoOpt.fetchMaxBytes (1024 * 1024 * 5)]

/-- kgo.BuildKgoOptions: base options, the kotel hooks when otel is enabled,
then the rebalance-strategy switch, the TLS block and the SASL block in
source order (so a TLS fatal precedes a SASL fatal).  The result is the
option list and the warnings, or the fatal message. -/
def BuildKgoOptions (env : TLSEnv) (cfg : Config) :
    Except String (List KgoOpt × List String) :=
  let opts1 := baseOpts cfg ++ (if cfg.otel.enabled then [KgoOpt.withHooks] else [])
  let bal := balancerOpts cfg.kafka.rebalanceStrategy
  match tlsOpts env cfg.kafka.tls with
  | Except.error e => Except.error e
  | Except.ok tlsO =>
    match saslOpts cfg.kafka.sasl with
    | Except.error e => Except.error e
    | Except.ok saslO => Except.ok (opts1 ++ bal.1 ++ tlsO ++ saslO, bal.2)

/-! ## Shutdown sequence of app.Start (ktel.go)

What Start does, in order, once the termination signal is received. -/

/-- One step of Start's shutdown path. -/
inductive ShutdownStep
  | stopHTTPServer
  | shutdownOtelProviders
  | closeKafkaClient
  | runCleanupFn (index : Nat)
  | joinWaitGroup
deriving DecidableEq

/-- The step order app.Start performs after the cancellation signal is
observed: shut down the HTTP server, shut down the OpenTelemetry providers,
close the Kafka client, run the registered cleanup functions in order, then
wait on the owning wait-group. -/
def startShutdownSequence (numCleanupFns : Nat) : List ShutdownStep :=
  [ShutdownStep.stopHTTPServer, ShutdownStep.shutdownOtelProviders,
   ShutdownStep.closeKafkaClient]
    ++ (List.range numCleanupFns).map ShutdownStep.runCleanupFn
    ++ [ShutdownStep.joinWaitGroup]

/-! ## Helper lemmas -/

/-- firstFailingCheck finds nothing exactly when every registered check
currently passes. -/
theorem firstFailingCheck_none_iff (l : List (String × Check)) :
    firstFailingCheck l = none ↔ ∀ p ∈ l, p.2 () = none := by
  induction l with
  | nil => simp [firstFailingCheck]
  | cons hd tl ih =>
    obtain ⟨name, check⟩ := hd
    rw [firstFailingCheck]
    cases hc : check () with
    | none => simpa [hc] using ih
    | some err => simp [hc]

/-- A hit of firstFailingCheck is a registered check that currently returns
that error. -/
theorem firstFailingCheck_mem (l : List (String × Check)) (name err : String)
    (h : firstFailingCheck l = some (name, err)) :
    ∃ check, (name, check) ∈ l ∧ check () = some err := by
  induction l with
  | nil => simp [firstFailingCheck] at h
  | cons hd tl ih =>
    obtain ⟨n, c⟩ := hd
    rw [firstFailingCheck] at h
    cases hc : c () with
    | none =>
      rw [hc] at h
      obtain ⟨check, hmem, hval⟩ := ih h
      exact ⟨check, List.mem_cons_of_mem _ hmem, hval⟩
    | some e =>
      rw [hc] at h
      obtain ⟨hn, he⟩ := Prod.mk.injEq .. ▸ Option.some.injEq .. ▸ h
      exact ⟨c, by simp [← hn], by rw [hc, he]⟩

/-- When the flag is false the readiness probe answers 503 with the
no-partitions body, whatever the registered checks. -/
theorem readinessProbe_of_not_ready (c : Checker) (h : c.ready = false) :
    ReadinessProbe c =
      { status := 503, body := "consumer not ready (no partitions assigned)\n" } := by
  simp [ReadinessProbe, h, httpError]

/-! ## Claim theorems -/

/-- C1: the claim says the messaging client's close happens only after the
consumer's owning wait-group is joined.  The code does the opposite: with one
registered cleanup function, Start's shutdown sequence is stop HTTP server,
shutdown otel providers, close Kafka client, cleanup, join wait-group, so the
close (position 2) strictly precedes the join (position 4) in every
execution of the shutdown path. -/
theorem c1_close_precedes_waitgroup_join :
    startShutdownSequence 1 =
      [ShutdownStep.stopHTTPServer, ShutdownStep.shutdownOtelProviders,
       ShutdownStep.closeKafkaClient, ShutdownStep.runCleanupFn 0,
       ShutdownStep.joinWaitGroup] ∧
    (startShutdownSequence 1).findIdx (fun s => s == ShutdownStep.closeKafkaClient) <
      (startShutdownSequence 1).findIdx (fun s => s == ShutdownStep.joinWaitGroup) := by
  constructor
  · rfl
  · decide

/-- C2: after any sequence of rebalance events, the readiness flag is the
value the most recent event determines: true after a non-empty assignment,
false after a revocation, false after a loss, regardless of the prior checker
state and of all earlier events. -/
theorem c2_readiness_determined_by_last_event (c : Checker)
    (pre : List RebalanceEvent) (m : PartitionMap) (hm : m ≠ []) :
    IsReady (applyRebalanceEvents c (pre ++ [RebalanceEvent.assigned m])) = true ∧
    IsReady (applyRebalanceEvents c (pre ++ [RebalanceEvent.revoked m])) = false ∧
    IsReady (applyRebalanceEvents c (pre ++ [RebalanceEvent.lost m])) = false := by
  refine ⟨?_, ?_, ?_⟩ <;>
    simp [applyRebalanceEvents, List.foldl_append, applyRebalanceEvent,
          onPartitionsAssigned, onPartitionsRevoked, onPartitionsLost, SetReady, IsReady]

/-- Witness for C2: starting from a fresh checker, a revocation followed by
the non-empty assignment of partitions 0 and 1 of topic t leaves the tracker
ready. -/
theorem c2_readiness_witness :
    IsReady (applyRebalanceEvents NewChecker
      ([RebalanceEvent.revoked []] ++
        [RebalanceEvent.assigned [("t", [0, 1])]])) = true :=
  (c2_readiness_determined_by_last_event NewChecker [RebalanceEvent.revoked []]
    [("t", [0, 1])] (List.cons_ne_nil _ _)).1

/-- C3: for every inner processor, context and record, the instrumented
ProcessRecord invokes the inner processor exactly once (with the span
context), produces exactly one span start/end pair, exactly one counter
increment and exactly one duration observation — in that order, on the one
exit path that exists for success and failure alike — tagged with the record
topic and success = (inner returned no error), and returns the inner result
unchanged. -/
theorem c3_instrumenting_processor_effects (inner : Processor) (ctx : Ctx)
    (record : Record) :
    (instrumentedProcessRecord inner ctx record).1 = inner (Ctx.child ctx) record ∧
    (instrumentedProcessRecord inner ctx record).2 =
      [TelemetryEffect.spanStart (record.topic ++ " process"),
       TelemetryEffect.innerCall,
       TelemetryEffect.counterAdd record.topic (inner (Ctx.child ctx) record == none),
       TelemetryEffect.histogramRecord record.topic (inner (Ctx.child ctx) record == none),
       TelemetryEffect.spanSetAttributes record.topic record.partition,
       TelemetryEffect.spanEnd] :=
  ⟨rfl, rfl⟩

/-- The operations the embedding application can apply to a checker before
any assignment arrives. -/
inductive CheckerOp
  | addReadinessCheck (name : String) (check : Check)
  | setReady (b : Bool)

/-- Apply one checker operation. -/
def applyCheckerOp (c : Checker) : CheckerOp → Checker
  | CheckerOp.addReadinessCheck name check => AddReadinessCheck c name check
  | CheckerOp.setReady b => SetReady c b

/-- Apply a sequence of checker operations in order. -/
def applyCheckerOps (c : Checker) (ops : List CheckerOp) : Checker :=
  ops.foldl applyCheckerOp c

/-- The readiness flag stays false under any operations that never include
SetReady(true). -/
theorem ready_false_preserved (ops : List CheckerOp) (c : Checker)
    (h : CheckerOp.setReady true ∉ ops) (hc : c.ready = false) :
    (applyCheckerOps c ops).ready = false := by
  induction ops generalizing c with
  | nil => exact hc
  | cons op rest ih =>
    have hop : op ≠ CheckerOp.setReady true := fun he => h (he ▸ List.mem_cons_self _ _)
    have hrest : CheckerOp.setReady true ∉ rest := fun hm => h (List.mem_cons_of_mem _ hm)
    cases op with
    | addReadinessCheck name check =>
      exact ih _ hrest (by simpa [applyCheckerOp, AddReadinessCheck] using hc)
    | setReady b =>
      cases b with
      | false => exact ih _ hrest rfl
      | true => exact absurd rfl hop

/-- C9: a checker fresh from NewChecker is not ready — IsReady is false and
the readiness probe answers 503 with the no-partitions body — and both stay
so across any operations that never call SetReady(true), although no revoke
or loss has occurred. -/
theorem c9_new_checker_starts_not_ready (ops : List CheckerOp)
    (h : CheckerOp.setReady true ∉ ops) :
    IsReady NewChecker = false ∧
    ReadinessProbe NewChecker =
      { status := 503, body := "consumer not ready (no partitions assigned)\n" } ∧
    IsReady (applyCheckerOps NewChecker ops) = false ∧
    ReadinessProbe (applyCheckerOps NewChecker ops) =
      { status := 503, body := "consumer not ready (no partitions assigned)\n" } := by
  have hflag : (applyCheckerOps NewChecker ops).ready = false :=
    ready_false_preserved ops NewChecker h rfl
  exact ⟨rfl, readinessProbe_of_not_ready _ rfl, hflag,
    readinessProbe_of_not_ready _ hflag⟩

/-- Witness for C9: after SetReady(false) alone (no SetReady(true)), the
fresh checker still reports not ready. -/
theorem c9_witness :
    IsReady (applyCheckerOps NewChecker [CheckerOp.setReady false]) = false :=
  (c9_new_checker_starts_not_ready [CheckerOp.setReady false] (by simp)).2.2.1

/-- C10: the partition-assignment callback calls SetReady(true)
unconditionally — for every prior checker state and every assignment map, the
empty map included, the readiness flag becomes true; no non-empty test guards
the call. -/
theorem c10_assignment_callback_unconditional (c : Checker) (assigned : PartitionMap) :
    IsReady (onPartitionsAssigned c assigned) = true ∧
    IsReady (onPartitionsAssigned c []) = true :=
  ⟨rfl, rfl⟩

/-! ## Poll-loop lemmas -/

/-- Once cancellation has fired, the loop returns at the top of the iteration
without polling. -/
theorem runFrom_cancelled (proc : Processor) (client : Nat → Fetch)
    (cancelAt i : Nat) (h : cancelAt ≤ i) :
    runFrom proc client cancelAt i = [LoopEvent.stopped] := by
  rw [runFrom]
  simp [h]

/-- An uncancelled iteration polls, runs its batch to completion, and
continues with the next iteration. -/
theorem runFrom_step (proc : Processor) (client : Nat → Fetch)
    (cancelAt i : Nat) (h : i < cancelAt) :
    runFrom proc client cancelAt i =
      (LoopEvent.polled i :: iterationEvents proc (client i)) ++
        runFrom proc client cancelAt (i + 1) := by
  rw [runFrom]
  simp [Nat.not_le_of_lt h]

/-- No iteration body contains a poll event. -/
theorem countPolled_iterationEvents (proc : Processor) (f : Fetch) :
    countPolled (iterationEvents proc f) = 0 := by
  rw [iterationEvents]
  split <;> simp [countPolled, List.countP_eq_zero, isPolledEvent]

/-- The loop polls exactly once per iteration that starts before cancellation,
whatever batches and errors the client returns. -/
theorem countPolled_runFrom (proc : Processor) (client : Nat → Fetch)
    (cancelAt : Nat) :
    ∀ d i, cancelAt - i = d →
      countPolled (runFrom proc client cancelAt i) = cancelAt - i := by
  intro d
  induction d with
  | zero =>
    intro i hd
    rw [runFrom_cancelled proc client cancelAt i (Nat.le_of_sub_eq_zero hd), hd]
    simp [countPolled, isPolledEvent]
  | succ d ih =>
    intro i hd
    have h : i < cancelAt := by omega
    rw [runFrom_step proc client cancelAt i h]
    have ht := ih (i + 1) (by omega)
    simp only [countPolled, List.countP_append, List.countP_cons] at ht ⊢
    have h0 := countPolled_iterationEvents proc (client i)
    simp only [countPolled] at h0
    simp [isPolledEvent, h0, ht]
    omega

/-- Every run of the loop ends with the stopped return. -/
theorem runFrom_getLast (proc : Processor) (client : Nat → Fetch)
    (cancelAt : Nat) :
    ∀ d i, cancelAt - i = d →
      (runFrom proc client cancelAt i).getLast? = some LoopEvent.stopped := by
  intro d
  induction d with
  | zero =>
    intro i hd
    rw [runFrom_cancelled proc client cancelAt i (Nat.le_of_sub_eq_zero hd)]
    rfl
  | succ d ih =>
    intro i hd
    have h : i < cancelAt := by omega
    rw [runFrom_step proc client cancelAt i h]
    have ht := ih (i + 1) (by omega)
    have hne : runFrom proc client cancelAt (i + 1) ≠ [] := by
      intro hnil
      rw [hnil] at ht
      simp at ht
    rw [List.getLast?_append_of_ne_nil _ hne]
    exact ht

/-! ## Claim theorems for the loop -/

/-- C4: in an iteration whose batch carries at least one fetch-level error,
the processor is dispatched zero times — every record of the batch, valid
ones included, is dropped — each error is logged, and the loop proceeds
directly to the next iteration. -/
theorem c4_fetch_errors_drop_whole_batch (proc : Processor) (client : Nat → Fetch)
    (cancelAt i : Nat) (hi : i < cancelAt) (he : (client i).errors.length > 0) :
    runFrom proc client cancelAt i =
      (LoopEvent.polled i :: (client i).errors.map LoopEvent.fetchErrorLogged) ++
        runFrom proc client cancelAt (i + 1) ∧
    countProcessed (iterationEvents proc (client i)) = 0 := by
  have hiter : iterationEvents proc (client i) =
      (client i).errors.map LoopEvent.fetchErrorLogged := by
    rw [iterationEvents, if_pos he]
  constructor
  · rw [runFrom_step proc client cancelAt i hi, hiter]
  · rw [hiter]
    simp [countProcessed, List.countP_eq_zero, isProcessedEvent]

/-- C5: in an iteration whose batch carries zero fetch-level errors and N
records, the processor is invoked exactly N times, once per record with that
record and its attached context, and all invocations sit before the next
iteration's poll in the trace, whatever each invocation returns. -/
theorem c5_clean_batch_dispatches_every_record (proc : Processor)
    (client : Nat → Fetch) (cancelAt i : Nat) (hi : i < cancelAt)
    (he : (client i).errors.length = 0) :
    runFrom proc client cancelAt i =
      (LoopEvent.polled i ::
        (client i).records.map (fun r => LoopEvent.processed r (proc r.ctx r))) ++
        runFrom proc client cancelAt (i + 1) ∧
    countProcessed (iterationEvents proc (client i)) = (client i).records.length := by
  have hiter : iterationEvents proc (client i) =
      (client i).records.map (fun r => LoopEvent.processed r (proc r.ctx r)) := by
    rw [iterationEvents, if_neg (by omega)]
  constructor
  · rw [runFrom_step proc client cancelAt i hi, hiter]
  · rw [hiter]
    simp [countProcessed, List.countP_map, Function.comp, isProcessedEvent]

/-- C7: the loop terminates only by cancellation.  From iteration i it polls
exactly once per iteration before the cancellation point — so fetch errors
never end or skip polling — its trace ends with the stopped return, and once
cancellation has fired (checked at the top of the iteration, never
mid-batch) it returns without any further poll. -/
theorem c7_terminates_only_by_cancellation (proc : Processor)
    (client : Nat → Fetch) (cancelAt i : Nat) :
    countPolled (runFrom proc client cancelAt i) = cancelAt - i ∧
    (runFrom proc client cancelAt i).getLast? = some LoopEvent.stopped ∧
    (cancelAt ≤ i →
      runFrom proc client cancelAt i = [LoopEvent.stopped]) :=
  ⟨countPolled_runFrom proc client cancelAt (cancelAt - i) i rfl,
   runFrom_getLast proc client cancelAt (cancelAt - i) i rfl,
   fun h => runFrom_cancelled proc client cancelAt i h⟩

/-! ## Concrete fixtures for witnesses -/

/-- A sample record on topic orders. -/
def sampleRecord : Record :=
  { topic := "orders", partition := 0, offset := 5, ctx := Ctx.root }

/-- A second sample record. -/
def sampleRecord2 : Record :=
  { topic := "orders", partition := 1, offset := 9, ctx := Ctx.root }

/-- A sample fetch-level error. -/
def sampleFetchError : FetchError :=
  { topic := "orders", partition := 0, err := "broker unreachable" }

/-- A batch carrying one fetch error alongside one valid record. -/
def errorBatch : Fetch :=
  { errors := [sampleFetchError], records := [sampleRecord] }

/-- A clean batch of two records and no errors. -/
def cleanBatch : Fetch :=
  { errors := [], records := [sampleRecord, sampleRecord2] }

/-- A processor that always succeeds. -/
def nilProcessor : Processor := fun _ _ => none

/-- Witness for C4: polling the error batch in iteration 0 (cancellation at
iteration 1) dispatches no record at all. -/
theorem c4_witness :
    countProcessed (iterationEvents nilProcessor errorBatch) = 0 :=
  (c4_fetch_errors_drop_whole_batch nilProcessor (fun _ => errorBatch) 1 0
    (by decide) (by decide)).2

/-- Witness for C5: polling the clean two-record batch in iteration 0
dispatches the processor exactly twice. -/
theorem c5_witness :
    countProcessed (iterationEvents nilProcessor cleanBatch) = 2 :=
  (c5_clean_batch_dispatches_every_record nilProcessor (fun _ => cleanBatch) 1 0
    (by decide) (by decide)).2

/-- C6: the readiness probe answers 503 exactly when the readiness flag is
false or some registered check currently errors — with the no-partitions body
when the flag is false, and a body naming a check that is actually registered
and failing otherwise — answers 200 with body ok in every other case, and the
liveness probe answers 200 with body ok unconditionally. -/
theorem c6_probe_handlers (c : Checker) :
    ((ReadinessProbe c).status = 503 ↔
      (c.ready = false ∨ ∃ p ∈ c.readinessChecks, p.2 () ≠ none)) ∧
    ((ReadinessProbe c).status ≠ 503 →
      ReadinessProbe c = { status := 200, body := "ok" }) ∧
    (c.ready = false →
      ReadinessProbe c =
        { status := 503, body := "consumer not ready (no partitions assigned)\n" }) ∧
    (∀ name err, c.ready = true →
      firstFailingCheck c.readinessChecks = some (name, err) →
      ReadinessProbe c = { status := 503, body := name ++ " is not ready: " ++ err ++ "\n" } ∧
      ∃ check, (name, check) ∈ c.readinessChecks ∧ check () = some err) ∧
    LivenessProbe c = { status := 200, body := "ok" } := by
  refine ⟨?_, ?_, fun h => readinessProbe_of_not_ready c h, ?_, rfl⟩
  · cases hr : c.ready with
    | false =>
      rw [readinessProbe_of_not_ready c hr]
      simp
    | true =>
      cases hf : firstFailingCheck c.readinessChecks with
      | none =>
        have hall := (firstFailingCheck_none_iff c.readinessChecks).mp hf
        simp only [ReadinessProbe, hr, Bool.not_true, Bool.false_eq_true, if_false, hf]
        constructor
        · intro h
          simp at h
        · rintro (h | ⟨p, hp, hne⟩)
          · simp [hr] at h
          · exact absurd (hall p hp) hne
      | some pair =>
        obtain ⟨name, err⟩ := pair
        obtain ⟨check, hmem, hval⟩ := firstFailingCheck_mem _ _ _ hf
        simp only [ReadinessProbe, hr, Bool.not_true, Bool.false_eq_true, if_false, hf,
          httpError]
        constructor
        · intro _
          exact Or.inr ⟨(name, check), hmem, by simp [hval]⟩
        · intro _
          trivial
  · intro h
    cases hr : c.ready with
    | false =>
      rw [readinessProbe_of_not_ready c hr] at h
      simp at h
    | true =>
      cases hf : firstFailingCheck c.readinessChecks with
      | none =>
        simp [ReadinessProbe, hr, hf]
      | some pair =>
        obtain ⟨name, err⟩ := pair
        simp [ReadinessProbe, hr, hf, httpError] at h
  · intro name err hr hf
    refine ⟨?_, firstFailingCheck_mem _ _ _ hf⟩
    simp [ReadinessProbe, hr, hf, httpError]

/-! ## Option-construction lemmas -/

/-- With SASL enabled and a mechanism outside the supported set, the SASL
block is fatal with the Unsupported SASL mechanism message. -/
theorem saslOpts_unsupported (s : SASLSettings) (h1 : s.enabled = true)
    (h2 : goToUpper s.mechanism ∉ ["PLAIN", "SCRAM-SHA-256", "SCRAM-SHA-512"]) :
    saslOpts s = Except.error ("Unsupported SASL mechanism: " ++ s.mechanism) := by
  unfold saslOpts
  rw [h1]
  simp only [if_true]
  split
  next heq => exact absurd (by rw [heq]; simp) h2
  next heq => exact absurd (by rw [heq]; simp) h2
  next heq => exact absurd (by rw [heq]; simp) h2
  next => rfl

/-- A successful SASL block appends nothing or exactly one mechanism
option. -/
theorem saslOpts_ok_shape (s : SASLSettings) (l : List KgoOpt)
    (h : saslOpts s = Except.ok l) :
    l = [] ∨ ∃ m, l = [KgoOpt.sasl m s.username s.password] := by
  unfold saslOpts at h
  by_cases hs : s.enabled
  · rw [hs] at h
    simp only [if_true] at h
    split at h
    next => exact Or.inr ⟨SaslMechanism.plain, by simpa using h.symm⟩
    next => exact Or.inr ⟨SaslMechanism.scramSha256, by simpa using h.symm⟩
    next => exact Or.inr ⟨SaslMechanism.scramSha512, by simpa using h.symm⟩
    next => simp at h
  · simp only [Bool.not_eq_true] at hs
    rw [hs] at h
    simp at h
    exact Or.inl h

/-- With TLS enabled and a failing createTLSConfig, the TLS block is fatal
with the Failed to create TLS config message. -/
theorem tlsOpts_fatal (env : TLSEnv) (t : TLSSettings) (e : String)
    (h1 : t.enabled = true)
    (h2 : createTLSConfig env t.certFile t.keyFile t.caFile = Except.error e) :
    tlsOpts env t = Except.error ("Failed to create TLS config: " ++ e) := by
  unfold tlsOpts
  rw [h1]
  simp [h2]

/-- A successful TLS block appends nothing or exactly the dial TLS option. -/
theorem tlsOpts_ok_shape (env : TLSEnv) (t : TLSSettings) (l : List KgoOpt)
    (h : tlsOpts env t = Except.ok l) :
    l = [] ∨ l = [KgoOpt.dialTLSConfig] := by
  unfold tlsOpts at h
  by_cases ht : t.enabled
  · rw [ht] at h
    simp only [if_true] at h
    split at h
    next => simp at h
    next => exact Or.inr (by simpa using h.symm)
  · simp only [Bool.not_eq_true] at ht
    rw [ht] at h
    simp at h
    exact Or.inl h

/-- An unknown or empty rebalance strategy appends no balancer option and
logs exactly the warning. -/
theorem balancerOpts_unknown (strategy : String)
    (h : goToLower strategy ∉ ["roundrobin", "range", "sticky"]) :
    balancerOpts strategy = ([], [unknownStrategyWarning strategy]) := by
  unfold balancerOpts
  split
  next heq => exact absurd (by rw [heq]; simp) h
  next heq => exact absurd (by rw [heq]; simp) h
  next heq => exact absurd (by rw [heq]; simp) h
  next => rfl

/-- The base options never contain a balancer option. -/
theorem balancers_not_in_baseOpts (cfg : Config) (b : Balancer) :
    KgoOpt.balancers b ∉ baseOpts cfg := by
  simp [baseOpts]

/-- When both the TLS and the SASL block succeed, BuildKgoOptions succeeds
with the blocks appended in source order and the strategy warnings. -/
theorem build_ok_parts (env : TLSEnv) (cfg : Config) (tlsO saslO : List KgoOpt)
    (ht : tlsOpts env cfg.kafka.tls = Except.ok tlsO)
    (hs : saslOpts cfg.kafka.sasl = Except.ok saslO) :
    BuildKgoOptions env cfg = Except.ok
      ((baseOpts cfg ++ (if cfg.otel.enabled then [KgoOpt.withHooks] else [])) ++
        (balancerOpts cfg.kafka.rebalanceStrategy).1 ++ tlsO ++ saslO,
       (balancerOpts cfg.kafka.rebalanceStrategy).2) := by
  unfold BuildKgoOptions
  rw [ht, hs]

/-- A fatal TLS block makes BuildKgoOptions fatal with the same message. -/
theorem build_tls_fatal (env : TLSEnv) (cfg : Config) (e : String)
    (ht : tlsOpts env cfg.kafka.tls = Except.error e) :
    BuildKgoOptions env cfg = Except.error e := by
  unfold BuildKgoOptions
  rw [ht]

/-- A fatal SASL block (with the TLS block succeeding before it) makes
BuildKgoOptions fatal with the same message. -/
theorem build_sasl_fatal (env : TLSEnv) (cfg : Config) (tlsO : List KgoOpt)
    (e : String) (ht : tlsOpts env cfg.kafka.tls = Except.ok tlsO)
    (hs : saslOpts cfg.kafka.sasl = Except.error e) :
    BuildKgoOptions env cfg = Except.error e := by
  unfold BuildKgoOptions
  rw [ht, hs]

/-- Inversion: a successful BuildKgoOptions run decomposes into successful
TLS and SASL blocks and the appended option lists. -/
theorem build_ok_inv (env : TLSEnv) (cfg : Config) (opts : List KgoOpt)
    (warnings : List String)
    (h : BuildKgoOptions env cfg = Except.ok (opts, warnings)) :
    ∃ tlsO saslO, tlsOpts env cfg.kafka.tls = Except.ok tlsO ∧
      saslOpts cfg.kafka.sasl = Except.ok saslO ∧
      opts = (baseOpts cfg ++ (if cfg.otel.enabled then [KgoOpt.withHooks] else [])) ++
        (balancerOpts cfg.kafka.rebalanceStrategy).1 ++ tlsO ++ saslO ∧
      warnings = (balancerOpts cfg.kafka.rebalanceStrategy).2 := by
  unfold BuildKgoOptions at h
  cases ht : tlsOpts env cfg.kafka.tls with
  | error e => rw [ht] at h; simp at h
  | ok tlsO =>
    rw [ht] at h
    cases hs : saslOpts cfg.kafka.sasl with
    | error e => rw [hs] at h; simp at h
    | ok saslO =>
      rw [hs] at h
      simp only [Except.ok.injEq, Prod.mk.injEq] at h
      exact ⟨tlsO, saslO, rfl, rfl, h.1.symm, h.2.symm⟩

/-- C8: an enabled-but-unsupported SASL mechanism and a malformed TLS key
pair are fatal initialization errors (the run aborts with the fatal message,
before any loop or probe server could start), while an unknown
rebalance-strategy value is non-fatal: every successful run then carries no
balancer option (falling back to the library default) and logs the warning,
and the run does succeed whenever the TLS and SASL blocks do. -/
theorem c8_fatal_and_nonfatal_init (env : TLSEnv) (cfg : Config) :
    (cfg.kafka.sasl.enabled = true →
      goToUpper cfg.kafka.sasl.mechanism ∉ ["PLAIN", "SCRAM-SHA-256", "SCRAM-SHA-512"] →
      ∀ tlsO, tlsOpts env cfg.kafka.tls = Except.ok tlsO →
        BuildKgoOptions env cfg =
          Except.error ("Unsupported SASL mechanism: " ++ cfg.kafka.sasl.mechanism)) ∧
    (cfg.kafka.tls.enabled = true →
      ∀ e, createTLSConfig env cfg.kafka.tls.certFile cfg.kafka.tls.keyFile
          cfg.kafka.tls.caFile = Except.error e →
        BuildKgoOptions env cfg =
          Except.error ("Failed to create TLS config: " ++ e)) ∧
    (goToLower cfg.kafka.rebalanceStrategy ∉ ["roundrobin", "range", "sticky"] →
      (∀ opts warnings, BuildKgoOptions env cfg = Except.ok (opts, warnings) →
        (∀ b, KgoOpt.balancers b ∉ opts) ∧
        unknownStrategyWarning cfg.kafka.rebalanceStrategy ∈ warnings) ∧
      (∀ tlsO saslO, tlsOpts env cfg.kafka.tls = Except.ok tlsO →
        saslOpts cfg.kafka.sasl = Except.ok saslO →
        ∃ p, BuildKgoOptions env cfg = Except.ok p)) := by
  refine ⟨?_, ?_, ?_⟩
  · intro h1 h2 tlsO ht
    exact build_sasl_fatal env cfg tlsO _ ht (saslOpts_unsupported _ h1 h2)
  · intro h1 e h2
    exact build_tls_fatal env cfg _ (tlsOpts_fatal env _ e h1 h2)
  · intro hstrat
    constructor
    · intro opts warnings h
      obtain ⟨tlsO, saslO, ht, hs, hopts, hwarn⟩ := build_ok_inv env cfg opts warnings h
      have hbal := balancerOpts_unknown _ hstrat
      constructor
      · intro b
        rw [hopts, hbal]
        simp only [List.append_nil, List.mem_append]
        rintro (((hmem | hmem) | hmem) | hmem)
        · exact balancers_not_in_baseOpts cfg b hmem
        · split at hmem <;> simp at hmem
        · rcases tlsOpts_ok_shape env _ _ ht with rfl | rfl <;> simp at hmem
        · rcases saslOpts_ok_shape _ _ hs with rfl | ⟨m, rfl⟩ <;> simp at hmem
      · rw [hwarn, hbal]
        simp
    · intro tlsO saslO ht hs
      exact ⟨_, build_ok_parts env cfg tlsO saslO ht hs⟩

/-- An environment in which every key-pair load and file read succeeds. -/
def okTLSEnv : TLSEnv :=
  { loadX509KeyPair := fun _ _ => Except.ok (), readFile := fun _ => Except.ok () }

/-- An environment in which loading the client key pair fails. -/
def badKeyPairEnv : TLSEnv :=
  { loadX509KeyPair := fun _ _ => Except.error "bad pem", readFile := fun _ => Except.ok () }

/-- A baseline configuration: TLS, SASL and otel disabled, empty rebalance
strategy. -/
def baseConfig : Config :=
  { appName := "kafka-consumer",
    kafka := { brokers := "localhost:9092", topic := "orders",
               groupID := "kafka-consumer-group", rebalanceStrategy := "",
               tls := { enabled := false, caFile := "", certFile := "", keyFile := "" },
               sasl := { enabled := false, mechanism := "", username := "", password := "" } },
    otel := { enabled := false } }

/-- The baseline configuration with SASL enabled on an unsupported
mechanism. -/
def cfgUnsupportedSasl : Config :=
  { baseConfig with kafka :=
    { baseConfig.kafka with sasl :=
      { enabled := true, mechanism := "OAUTHBEARER", username := "u", password := "p" } } }

/-- The baseline configuration with TLS enabled on a cert/key pair. -/
def cfgTLSKeyPair : Config :=
  { baseConfig with kafka :=
    { baseConfig.kafka with tls :=
      { enabled := true, caFile := "", certFile := "client.crt", keyFile := "client.key" } } }

/-- Witness for C8: the unsupported mechanism OAUTHBEARER aborts with the
fatal message; a malformed key pair aborts with the fatal TLS message; the
empty (unknown) strategy still succeeds, with no balancer option and the
warning. -/
theorem c8_witness :
    BuildKgoOptions okTLSEnv cfgUnsupportedSasl =
      Except.error "Unsupported SASL mechanism: OAUTHBEARER" ∧
    BuildKgoOptions badKeyPairEnv cfgTLSKeyPair =
      Except.error "Failed to create TLS config: could not load client key pair: bad pem" ∧
    BuildKgoOptions okTLSEnv baseConfig =
      Except.ok (baseOpts baseConfig, [unknownStrategyWarning ""]) :=
  ⟨rfl, rfl, rfl⟩

end Ktel
